import Mathlib

/-!
Shallow embedding of `crew_definition.py` (the MasumiHackathon marketplace
crew): request normalization, catalog lookup, four-stage crew construction
and the `run()` entry point, together with theorems settling the frozen
claims about this program.

Python values are modelled by `PyVal`, Python exceptions by `PyErr`
(an `Except.error` models an exception propagating out of the modelled
code unhandled).  The catalog file `product_database.json` and the crewai
reasoning backend are external collaborators: the catalog is passed in as
a list of records, the reasoning capability as a function argument.
-/

set_option maxRecDepth 40000

/-- Python exceptions that the modelled code can raise or catch. -/
inductive PyErr where
  | keyError (k : String)
  | valueError (msg : String)
  | typeError (msg : String)
  | attributeError (msg : String)
  | capFailure (msg : String)
deriving DecidableEq, Repr

/-- One catalog record of `product_database.json`.  The source reads each
record with `p.get("product_id", "")`, so the `product_id` field may be
absent (`none`); the remaining seller-offer fields are opaque key/value
pairs. -/
structure CatalogRecord where
  product_id : Option String
  fields : List (String × String)
deriving DecidableEq, Repr

/-- A Python float as this program produces and consumes it: an exact
decimal `mant / 10 ^ scale`.  The program parses, stores, renders and
truncates floats but never does arithmetic between them, so the decimal
abstraction of the binary float is exact for every value the program
handles. -/
structure PFloat where
  mant : Int
  scale : Nat
deriving DecidableEq, Repr

/-- Python values flowing through the program (the subset produced by
JSON parsing plus the attached list of catalog records). -/
inductive PyVal where
  | str (s : String)
  | int (n : Int)
  | float (q : PFloat)
  | bool (b : Bool)
  | null
  | list (xs : List PyVal)
  | dict (kvs : List (String × PyVal))
  | details (rs : List CatalogRecord)

/-- Association-list lookup modelling Python `dict` access (insertion
order preserved, first binding wins; the program never creates duplicate
keys). -/
def dictGet : List (String × PyVal) → String → Option PyVal
  | [], _ => none
  | (k, v) :: kvs, k' => if k = k' then some v else dictGet kvs k'

/-- Python `d[k] = v`: replace the value of an existing key in place,
else append the new binding. -/
def dictInsert : List (String × PyVal) → String → PyVal → List (String × PyVal)
  | [], k, v => [(k, v)]
  | (k0, v0) :: kvs, k, v =>
    if k0 = k then (k0, v) :: kvs else (k0, v0) :: dictInsert kvs k v

/-- Python subscript `x[k]` with a string key: `KeyError` on a dict
missing the key, `TypeError` on non-dicts. -/
def pySubscript (v : PyVal) (k : String) : Except PyErr PyVal :=
  match v with
  | .dict kvs =>
    match dictGet kvs k with
    | some x => .ok x
    | none => .error (.keyError k)
  | _ => .error (.typeError "object is not subscriptable with a string key")

/-- Python `x.get(k)` (dict method, default `None`): `AttributeError`
on non-dicts. -/
def pyGetMethod (v : PyVal) (k : String) : Except PyErr (Option PyVal) :=
  match v with
  | .dict kvs => .ok (dictGet kvs k)
  | _ => .error (.attributeError "object has no attribute \x27get\x27")

/-- Python `x[k] = y` item assignment: `TypeError` on non-dicts. -/
def pySetItem (v : PyVal) (k : String) (x : PyVal) : Except PyErr PyVal :=
  match v with
  | .dict kvs => .ok (.dict (dictInsert kvs k x))
  | _ => .error (.typeError "object does not support item assignment")

/-- ASCII lowercasing of one character, as Python `str.lower()` does on
the ASCII ids this program compares (non-ASCII passes through). -/
def charLower (c : Char) : Char :=
  if 'A' ≤ c ∧ c ≤ 'Z' then Char.ofNat (c.toNat + 32) else c

/-- Python `str.lower()` (ASCII subset). -/
def pyLower (s : String) : String := ⟨s.data.map charLower⟩

/-- Python `str.strip()` with no argument: drop leading and trailing
whitespace. -/
def pyStrip (s : String) : String :=
  ⟨((s.data.dropWhile Char.isWhitespace).reverse.dropWhile Char.isWhitespace).reverse⟩

/-- Value of a list of decimal digit characters. -/
def decDigitsVal (cs : List Char) : Nat :=
  cs.foldl (fun a c => a * 10 + (c.toNat - 48)) 0

/-- Unsigned part of a Python float literal: digits, optionally followed
by a point and further digits, at least one digit overall (exponent and
inf/nan forms are outside the modelled subset). -/
def parseUnsignedFloat (cs : List Char) : Option PFloat :=
  let ip := cs.takeWhile Char.isDigit
  let rest := cs.dropWhile Char.isDigit
  match rest with
  | [] => if ip = [] then none else some ⟨(decDigitsVal ip : Int), 0⟩
  | '.' :: fcs =>
    let fp := fcs.takeWhile Char.isDigit
    let rest2 := fcs.dropWhile Char.isDigit
    if rest2 = [] ∧ (ip ≠ [] ∨ fp ≠ []) then
      some ⟨(decDigitsVal ip * 10 ^ fp.length + decDigitsVal fp : Nat), fp.length⟩
    else none
  | _ => none

/-- Python `float(s)` string parsing: surrounding whitespace allowed,
optional sign, then an unsigned float literal. -/
def parseFloatStr (s : String) : Option PFloat :=
  match (pyStrip s).data with
  | '+' :: cs => parseUnsignedFloat cs
  | '-' :: cs => (parseUnsignedFloat cs).map (fun d => ⟨-d.mant, d.scale⟩)
  | cs => parseUnsignedFloat cs

/-- Python `int(s)` string parsing: surrounding whitespace allowed,
optional sign, then decimal digits only (so `"5.0"` fails). -/
def parseIntStr (s : String) : Option Int :=
  match (pyStrip s).data with
  | '+' :: cs =>
    if cs ≠ [] ∧ cs.all Char.isDigit then some (decDigitsVal cs : Int) else none
  | '-' :: cs =>
    if cs ≠ [] ∧ cs.all Char.isDigit then some (-(decDigitsVal cs : Int)) else none
  | cs =>
    if cs ≠ [] ∧ cs.all Char.isDigit then some (decDigitsVal cs : Int) else none

/-- Truncation toward zero, as Python `int(float)` does. -/
def pfloatTrunc (d : PFloat) : Int := d.mant.tdiv ((10 : Int) ^ d.scale)

/-- Python `float(x)`: numbers and numeric strings coerce, `bool` maps
to 0/1, everything else is a `TypeError`. -/
def pyFloat (v : PyVal) : Except PyErr PFloat :=
  match v with
  | .int n => .ok ⟨n, 0⟩
  | .float q => .ok q
  | .bool b => .ok ⟨if b then 1 else 0, 0⟩
  | .str s =>
    match parseFloatStr s with
    | some q => .ok q
    | none => .error (.valueError ("could not convert string to float: \x27" ++ s ++ "\x27"))
  | _ => .error (.typeError "float() argument must be a string or a real number")

/-- Python `int(x)`: ints pass through, floats truncate toward zero,
strings must be integer literals, everything else is a `TypeError`. -/
def pyInt (v : PyVal) : Except PyErr Int :=
  match v with
  | .int n => .ok n
  | .float q => .ok (pfloatTrunc q)
  | .bool b => .ok (if b then 1 else 0)
  | .str s =>
    match parseIntStr s with
    | some n => .ok n
    | none => .error (.valueError ("invalid literal for int() with base 10: \x27" ++ s ++ "\x27"))
  | _ => .error (.typeError "int() argument must be a string or a number")

/-- `load_product_details` from the source (lines 5-11), with the catalog
(the parsed content of `product_database.json`, an external store) passed
in explicitly: filter the records whose `product_id`, defaulted to the
empty string, equals the queried id under strip+lower normalization. -/
def load_product_details (product_id : String) (products : List CatalogRecord) :
    List CatalogRecord :=
  products.filter (fun p =>
    pyLower (pyStrip (p.product_id.getD "")) == pyLower (pyStrip product_id))

/-- Rendering of a Python exception inside an f-string (`KeyError`
renders as the quoted key, the others as their message). -/
def errStr : PyErr → String
  | .keyError k => "\x27" ++ k ++ "\x27"
  | .valueError m => m
  | .typeError m => m
  | .attributeError m => m
  | .capFailure m => m

/-- Two-decimal-digit rendering with a leading zero. -/
def twoDigits (n : Nat) : String := (if n < 10 then "0" else "") ++ toString n

/-- Python `format(x, ".2f")`: two decimal places, rounding half up
(Python rounds half to even; the program only formats budgets whose
hundredths are exact, where the two modes agree). -/
def format2f (d : PFloat) : String :=
  let p : Int := ((10 : Nat) ^ d.scale : Nat)
  let c : Int := (d.mant * 200 + p).fdiv (2 * p)
  let sign := if c < 0 then "-" else ""
  let n := c.natAbs
  sign ++ toString (n / 100) ++ "." ++ twoDigits (n % 100)

/-- A string of `k` zeros followed by `s`, padding `s` to `k` digits. -/
def padZeros (s : String) (k : Nat) : String :=
  String.mk (List.replicate (k - s.length) '0') ++ s

/-- Python `str(float)`: the decimal digits with at least one fractional
digit (`5.0`, `19.99`). -/
def floatStr (d : PFloat) : String :=
  if d.scale = 0 then toString d.mant ++ ".0"
  else
    let sign := if d.mant < 0 then "-" else ""
    let n := d.mant.natAbs
    let p := (10 : Nat) ^ d.scale
    sign ++ toString (n / p) ++ "." ++ padZeros (toString (n % p)) d.scale

/-- Python `repr` of one catalog record (a dict of its fields). -/
def record_repr (r : CatalogRecord) : String :=
  "\x7b" ++ String.intercalate ", "
    ((match r.product_id with
      | some s => ["\x27product_id\x27: \x27" ++ s ++ "\x27"]
      | none => []) ++
      r.fields.map (fun kv => "\x27" ++ kv.1 ++ "\x27: \x27" ++ kv.2 ++ "\x27")) ++ "\x7d"

/-- Python `repr` of an attached list of catalog records. -/
def details_repr (rs : List CatalogRecord) : String :=
  "[" ++ String.intercalate ", " (rs.map record_repr) ++ "]"

/-- Python `repr` of a value, fuel-bounded for nested containers. -/
def pyReprF : Nat → PyVal → String
  | _, .str s => "\x27" ++ s ++ "\x27"
  | _, .int n => toString n
  | _, .float q => floatStr q
  | _, .bool b => if b then "True" else "False"
  | _, .null => "None"
  | _, .details rs => details_repr rs
  | Nat.succ f, .list xs => "[" ++ String.intercalate ", " (xs.map (pyReprF f)) ++ "]"
  | Nat.succ f, .dict kvs =>
    "\x7b" ++ String.intercalate ", "
      (kvs.map (fun kv => "\x27" ++ kv.1 ++ "\x27: " ++ pyReprF f kv.2)) ++ "\x7d"
  | 0, .list _ => "[...]"
  | 0, .dict _ => "\x7b...\x7d"

mutual

/-- Nesting depth of a value, used to size the `pyReprF` fuel. -/
def pyDepth : PyVal → Nat
  | .list xs => pyDepthList xs + 1
  | .dict kvs => pyDepthKVs kvs + 1
  | _ => 1

/-- Greatest nesting depth in a list of values. -/
def pyDepthList : List PyVal → Nat
  | [] => 0
  | x :: xs => max (pyDepth x) (pyDepthList xs)

/-- Greatest nesting depth among the values of a key/value list. -/
def pyDepthKVs : List (String × PyVal) → Nat
  | [] => 0
  | (_, v) :: kvs => max (pyDepth v) (pyDepthKVs kvs)

end

/-- Python `repr` of a value. -/
def pyRepr (v : PyVal) : String := pyReprF (pyDepth v) v

/-- Python `str` of a value as an f-string interpolates it: strings
render without quotes, containers via `repr`. -/
def pyStr (v : PyVal) : String :=
  match v with
  | .str s => s
  | v => pyRepr v

/-- Skip JSON whitespace. -/
def jskipWs : List Char → List Char
  | [] => []
  | c :: chs =>
    if c = ' ' ∨ c = '\n' ∨ c = '\t' ∨ c = '\r' then jskipWs chs else c :: chs

/-- One JSON escape character (the `\u` form is outside the modelled
subset). -/
def jesc (c : Char) : Char :=
  if c = 'n' then '\n' else if c = 't' then '\t' else if c = 'r' then '\r' else c

/-- Body of a JSON string after the opening quote: characters up to the
closing quote, with backslash escapes. -/
def jstringAux : List Char → Option (List Char × List Char)
  | [] => none
  | '"' :: rm => some ([], rm)
  | '\\' :: c :: rm => (jstringAux rm).map (fun p => (jesc c :: p.1, p.2))
  | c :: rm => (jstringAux rm).map (fun p => (c :: p.1, p.2))

/-- A JSON number: optional minus, digits, optional fraction (exponents
are outside the modelled subset).  Integers parse as `int`, fractions as
`float`, as Python `json.loads` does. -/
def jnumber (chs : List Char) : Option (PyVal × List Char) :=
  let sgn := match chs with | '-' :: r => (true, r) | _ => (false, chs)
  let neg := sgn.1
  let cs1 := sgn.2
  let ip := cs1.takeWhile Char.isDigit
  let r1 := cs1.dropWhile Char.isDigit
  if ip = [] then none
  else
    match r1 with
    | '.' :: r2 =>
      let fp := r2.takeWhile Char.isDigit
      let r3 := r2.dropWhile Char.isDigit
      if fp = [] then none
      else
        let m : Int := (decDigitsVal ip * 10 ^ fp.length + decDigitsVal fp : Nat)
        some (.float ⟨if neg then -m else m, fp.length⟩, r3)
    | _ =>
      let n : Int := (decDigitsVal ip : Int)
      some (.int (if neg then -n else n), r1)

mutual

/-- Modelled from the spec: Python's `json.loads` (stdlib, an external
collaborator) restricted to a practical JSON subset — values, objects
and arrays by fuel-bounded recursive descent, with Python-style error
messages. -/
def jval : Nat → List Char → Except String (PyVal × List Char)
  | 0, _ => .error "Expecting value"
  | Nat.succ f, chs =>
    match jskipWs chs with
    | [] => .error "Expecting value"
    | c :: rm =>
      if c = '"' then
        match jstringAux rm with
        | some (sd, rm2) => .ok (.str ⟨sd⟩, rm2)
        | none => .error "Unterminated string"
      else if c = Char.ofNat 123 then
        match jskipWs rm with
        | c2 :: rm2 =>
          if c2 = Char.ofNat 125 then .ok (.dict [], rm2)
          else jmembers f (c2 :: rm2) []
        | [] => .error "Expecting property name enclosed in double quotes"
      else if c = '[' then
        match jskipWs rm with
        | c2 :: rm2 =>
          if c2 = ']' then .ok (.list [], rm2)
          else jitems f (c2 :: rm2) []
        | [] => .error "Expecting value"
      else if c = 't' then
        if rm.take 3 = "rue".data then .ok (.bool true, rm.drop 3)
        else .error "Expecting value"
      else if c = 'f' then
        if rm.take 4 = "alse".data then .ok (.bool false, rm.drop 4)
        else .error "Expecting value"
      else if c = 'n' then
        if rm.take 3 = "ull".data then .ok (.null, rm.drop 3)
        else .error "Expecting value"
      else
        match jnumber (c :: rm) with
        | some (v, r) => .ok (v, r)
        | none => .error "Expecting value"

/-- JSON object members after the opening brace (first member not yet
consumed). -/
def jmembers : Nat → List Char → List (String × PyVal) →
    Except String (PyVal × List Char)
  | 0, _, _ => .error "Expecting value"
  | Nat.succ f, chs, sofar =>
    match jskipWs chs with
    | c :: rm =>
      if c = '"' then
        match jstringAux rm with
        | some (kd, rm2) =>
          match jskipWs rm2 with
          | ':' :: rm3 =>
            match jval f rm3 with
            | .ok (v, rm4) =>
              let grown := sofar ++ [(⟨kd⟩, v)]
              match jskipWs rm4 with
              | ',' :: rm5 => jmembers f rm5 grown
              | c5 :: rm5 =>
                if c5 = Char.ofNat 125 then .ok (.dict grown, rm5)
                else .error "Expecting delimiter"
              | [] => .error "Expecting delimiter"
            | .error e => .error e
          | _ => .error "Expecting colon delimiter"
        | none => .error "Unterminated string"
      else .error "Expecting property name enclosed in double quotes"
    | [] => .error "Expecting property name enclosed in double quotes"

/-- JSON array items after the opening bracket (first item not yet
consumed). -/
def jitems : Nat → List Char → List PyVal → Except String (PyVal × List Char)
  | 0, _, _ => .error "Expecting value"
  | Nat.succ f, chs, sofar =>
    match jval f chs with
    | .ok (v, rm) =>
      let grown := sofar ++ [v]
      match jskipWs rm with
      | ',' :: rm2 => jitems f rm2 grown
      | ']' :: rm2 => .ok (.list grown, rm2)
      | _ => .error "Expecting delimiter"
    | .error e => .error e

end

/-- Python `json.loads`: parse one JSON value and require only
whitespace after it. -/
def jsonLoads (s : String) : Except String PyVal :=
  match jval (s.length + 1) s.data with
  | .ok (v, rm) =>
    match jskipWs rm with
    | [] => .ok v
    | _ => .error "Extra data"
  | .error e => .error e

/-- A crewai `Agent` as the program constructs it (the `allow_delegation`
and `verbose` flags carry no orchestration meaning and are omitted). -/
structure AgentT where
  role : String
  goal : String
  backstory : String
deriving DecidableEq, Repr

/-- A crewai `Task`: description, expected-output hint and bound agent. -/
structure TaskT where
  description : String
  expected_output : String
  agent : AgentT
deriving DecidableEq, Repr

/-- A crewai `Crew`: its agents and ordered task list. -/
structure CrewT where
  agents : List AgentT
  tasks : List TaskT
deriving DecidableEq, Repr

/-- One recorded invocation of the Reasoning Capability: the agent it
was bound to, the context handed over, and the task description. -/
structure CallRec where
  agent : AgentT
  context : String
  description : String
deriving DecidableEq, Repr

/-- The Reasoning Capability: role-bound text completion, which may fail
with a raised error. -/
abbrev Cap := AgentT → String → String → Except PyErr String

/-- Sequential execution of an ordered task list against the capability:
each task runs with the previous task's output as context, a failure
stops the chain and propagates.  Also returns the invocation trace. -/
def kickoffAux (cap : Cap) : List TaskT → String → Except PyErr String × List CallRec
  | [], ctx => (.ok ctx, [])
  | t :: ts, ctx =>
    match cap t.agent ctx t.description with
    | .error e => (.error e, [⟨t.agent, ctx, t.description⟩])
    | .ok out =>
      let r := kickoffAux cap ts out
      (r.1, ⟨t.agent, ctx, t.description⟩ :: r.2)

/-- Modelled from the spec: crewai's `Crew(...).kickoff()` (sequential
process) is an external collaborator whose code is not in this
repository.  Per the spec, the tasks run strictly in order, each
submitted to the Reasoning Capability with the immediately preceding
task's textual output as context (the first task with empty context);
the final task's text is the result and a capability failure propagates
as a raised error. -/
def kickoff (cap : Cap) (tasks : List TaskT) : Except PyErr String × List CallRec :=
  kickoffAux cap tasks ""

/-- The intent-parsing agent (source lines 24-30). -/
def parser_agent : AgentT :=
  { role := "Buyer Intent Parser"
    goal := "Understand buyer\x27s request and convert it into structured product request"
    backstory := "You are an expert assistant that turns user sentences into backend-ready JSON." }

/-- The intent-parsing task over the raw free-text input (source lines
32-46). -/
def parsing_task (s : String) : TaskT :=
  { description :=
      "Parse the following user request into a valid JSON object with keys: " ++
      "ProductID, Quantity, Budget, Instruction.\n\n" ++
      "Input:\n" ++ s ++ "\n\n" ++
      "Requirements:\n" ++
      "- ProductID must be a string like \x27p5\x27.\n" ++
      "- Quantity must be an integer.\n" ++
      "- Budget must be a float.\n" ++
      "- Instruction is a sentence or phrase expressing preference.\n\n" ++
      "Return ONLY the JSON object with these 4 keys."
    expected_output := "A valid JSON object with keys: ProductID, Quantity, Budget, Instruction."
    agent := parser_agent }

/-- Python `format(x, ".2f")` on a runtime value: numbers format, a
string raises `ValueError`, other objects `TypeError`. -/
def pyFormat2f (v : PyVal) : Except PyErr String :=
  match v with
  | .float q => .ok (format2f q)
  | .int n => .ok (format2f ⟨n, 0⟩)
  | .bool b => .ok (format2f ⟨if b then 1 else 0, 0⟩)
  | .str _ => .error (.valueError "Unknown format code \x27f\x27 for object of type \x27str\x27")
  | _ => .error (.typeError "unsupported format string passed to object")

/-- Junior seller agent (source lines 100-106). -/
def junior_seller : AgentT :=
  { role := "Junior Seller Agent"
    goal := "Shortlist up to 3 matching sellers"
    backstory := "Expert in filtering offers based on constraints like budget and instruction." }

/-- Junior seller task (source lines 108-125); its f-string description
subscripts `ProductDetails`, `Quantity`, `Budget` (formatted `.2f`) and
`Instruction` in that order, so a missing key or unformattable budget
raises here. -/
def junior_seller_task (v : PyVal) : Except PyErr TaskT :=
  match pySubscript v "ProductDetails" with
  | .error e => .error e
  | .ok pd =>
  match pySubscript v "Quantity" with
  | .error e => .error e
  | .ok q =>
  match pySubscript v "Budget" with
  | .error e => .error e
  | .ok bv =>
  match pyFormat2f bv with
  | .error e => .error e
  | .ok bs =>
  match pySubscript v "Instruction" with
  | .error e => .error e
  | .ok ins =>
  .ok { description :=
          "You are given a product request and a list of sellers:\n\n" ++
          "• Product Details: " ++ pyStr pd ++ "\n" ++
          "• Quantity: " ++ pyStr q ++ "\n" ++
          "• Unit Budget: " ++ bs ++ "\n" ++
          "• Buyer Instruction: " ++ pyStr ins ++ "\n\n" ++
          "Select up to 3 sellers where:\n" ++
          "- product_id matches\n" ++
          "- unit price ≤ unit budget\n" ++
          "- description meets instruction\n" ++
          "- quantity is available\n\n" ++
          "Return JSON list: SellerID, ProductID, Price, Description, Reason.\n" ++
          "If no match, say: \x27No suitable sellers available.\x27"
        expected_output := "List of up to 3 sellers or a message if none match."
        agent := junior_seller }

/-- Senior seller agent (source lines 128-134). -/
def senior_seller : AgentT :=
  { role := "Senior Seller Review Agent"
    goal := "Validate or correct the junior seller shortlist"
    backstory := "You\x27re the QA lead ensuring seller options meet buyer constraints." }

/-- Senior seller task (source lines 136-147): subscripts `ProductID`
and `Budget` (formatted `.2f`). -/
def senior_seller_task (v : PyVal) : Except PyErr TaskT :=
  match pySubscript v "ProductID" with
  | .error e => .error e
  | .ok pid =>
  match pySubscript v "Budget" with
  | .error e => .error e
  | .ok bv =>
  match pyFormat2f bv with
  | .error e => .error e
  | .ok bs =>
  .ok { description :=
          "Review the seller shortlist for ProductID=" ++ pyStr pid ++ ":\n" ++
          "- Confirm unit price ≤ " ++ bs ++ "\n" ++
          "- Ensure instruction is met\n" ++
          "- Confirm quantity is sufficient\n" ++
          "If invalid, revise and give reason.\n" ++
          "If none qualify, say: \x27No valid sellers.\x27"
        expected_output := "Final shortlist or rejection with feedback."
        agent := senior_seller }

/-- Junior buyer agent (source lines 150-156). -/
def junior_buyer : AgentT :=
  { role := "Junior Buyer Agent"
    goal := "Select the best seller option"
    backstory := "You evaluate cost and instruction fit to choose the most suitable seller." }

/-- Junior buyer task (source lines 158-168); its description is a plain
string with no interpolation. -/
def junior_buyer_task : TaskT :=
  { description :=
      "Pick the best seller from the senior-approved list:\n" ++
      "- Lowest acceptable price\n" ++
      "- Matches instruction well\n" ++
      "- Quantity available\n\n" ++
      "Return JSON: SellerID, Price, Description, Reason."
    expected_output := "Best seller selected with reason."
    agent := junior_buyer }

/-- Senior buyer agent (source lines 171-177). -/
def senior_buyer : AgentT :=
  { role := "Senior Buyer Review Agent"
    goal := "Approve or revise the final choice"
    backstory := "You verify that the chosen seller fits all constraints." }

/-- Senior buyer task (source lines 179-189): subscripts `Budget`
(formatted `.2f`). -/
def senior_buyer_task (v : PyVal) : Except PyErr TaskT :=
  match pySubscript v "Budget" with
  | .error e => .error e
  | .ok bv =>
  match pyFormat2f bv with
  | .error e => .error e
  | .ok bs =>
  .ok { description :=
          "Review the chosen seller:\n" ++
          "- Ensure price ≤ " ++ bs ++ "\n" ++
          "- Confirm description matches instruction\n" ++
          "- Confirm quantity meets request\n" ++
          "Approve if valid, else revise and explain."
        expected_output := "Final approval and reasoning in JSON."
        agent := senior_buyer }

/-- `MarketplaceCrew.create_crew` (source lines 98-195): build the four
agents and their tasks in source order and return the four-task crew.
Task descriptions are f-strings evaluated at construction, so a missing
key or unformattable value raises out of this function. -/
def create_crew (v : PyVal) : Except PyErr CrewT :=
  match junior_seller_task v with
  | .error e => .error e
  | .ok t1 =>
  match senior_seller_task v with
  | .error e => .error e
  | .ok t2 =>
  match senior_buyer_task v with
  | .error e => .error e
  | .ok t4 =>
  .ok { agents := [junior_seller, senior_seller, junior_buyer, senior_buyer]
        tasks := [t1, t2, junior_buyer_task, t4] }

/-- The value of `dict.get(k)` rendered inside the validation message
(`None` when the key is absent). -/
def optValStr : Option PyVal → String
  | some v => pyStr v
  | none => "None"

/-- The " Invalid input format" message of step 2 (source lines 62-65);
it calls `.get` on the current `input_data`, which itself raises
`AttributeError` on a non-dict — uncaught, since it occurs inside the
`except` handler. -/
def invalidMsg (v : PyVal) (e : PyErr) : Except PyErr String := do
  let b ← pyGetMethod v "Budget"
  let q ← pyGetMethod v "Quantity"
  .ok (" Invalid input format: " ++ errStr e ++
       " (Budget: " ++ optValStr b ++ ", Quantity: " ++ optValStr q ++ ")")

/-- Step 2 of `setup` (source lines 56-65): coerce `Budget` to float and
`Quantity` to int in place; on `ValueError`/`TypeError`/`KeyError`
record the " Invalid input format" message in `result`.  Faithful to the
source, this step does not return early on failure — the `except` block
has no `return` — so the possibly partially-coerced `input_data` flows
on to step 3 together with the recorded message. -/
def validate_and_cast (v0 : PyVal) : Except PyErr (PyVal × Option String) :=
  match pySubscript v0 "Budget" with
  | .error e => do let m ← invalidMsg v0 e; .ok (v0, some m)
  | .ok bv =>
    match pyFloat bv with
    | .error e => do let m ← invalidMsg v0 e; .ok (v0, some m)
    | .ok b =>
      match pySetItem v0 "Budget" (.float b) with
      | .error e => do let m ← invalidMsg v0 e; .ok (v0, some m)
      | .ok v1 =>
        match pySubscript v1 "Quantity" with
        | .error e => do let m ← invalidMsg v1 e; .ok (v1, some m)
        | .ok qv =>
          match pyInt qv with
          | .error e => do let m ← invalidMsg v1 e; .ok (v1, some m)
          | .ok q =>
            match pySetItem v1 "Quantity" (.int q) with
            | .error e => do let m ← invalidMsg v1 e; .ok (v1, some m)
            | .ok v2 => .ok (v2, none)

/-- The state of a `MarketplaceCrew` object after `__init__`/`setup`:
the (possibly mutated) `input_data`, the `result` message if one was
recorded, and the constructed crew if construction was reached. -/
structure CrewState where
  input_data : PyVal
  result : Option String
  crew : Option CrewT

/-- The call `load_product_details(product_id)` on a runtime value:
`.strip()` on a non-string raises `AttributeError`, caught by `setup`'s
catch-all handler. -/
def pyLoadDetails (pidv : PyVal) (cat : List CatalogRecord) :
    Except PyErr (List CatalogRecord) :=
  match pidv with
  | .str s => .ok (load_product_details s cat)
  | _ => .error (.attributeError "object has no attribute \x27strip\x27")

/-- Steps 3-4 of `setup` (source lines 68-96): extract `ProductID`, look
it up in the catalog, require a non-empty match list (else the raised
`ValueError` is caught and rendered), attach the matches as
`ProductDetails`; after the `try` block, re-check emptiness (line 89),
re-attach (line 95) and build the crew (line 96).  `r0` is the `result`
left behind by step 2.  Everything after the `try` block is unprotected:
an exception out of `create_crew` or the line-91 interpolation escapes. -/
def attach_details (v : PyVal) (r0 : Option String) (cat : List CatalogRecord) :
    Except PyErr CrewState :=
  match pySubscript v "ProductID" with
  | .error (.keyError _) =>
    .ok ⟨v, some " \x27ProductID\x27 key missing in input data.", none⟩
  | .error e =>
    .ok ⟨v, some (" Unexpected error while loading product details: " ++ errStr e), none⟩
  | .ok pidv =>
    match pyLoadDetails pidv cat with
    | .error e =>
      .ok ⟨v, some (" Unexpected error while loading product details: " ++ errStr e), none⟩
    | .ok pds =>
      if pds.isEmpty then
        .ok ⟨v, some (" No product details found for ProductID: " ++ pyStr pidv), none⟩
      else
        match pySetItem v "ProductDetails" (.details pds) with
        | .error e =>
          .ok ⟨v, some (" Unexpected error while loading product details: " ++ errStr e), none⟩
        | .ok v3 =>
          if pds.isEmpty then
            match pySubscript v3 "ProductID" with
            | .error e => .error e
            | .ok pv =>
              .ok ⟨v3, some (" Agent: Sorry, no matches found for ProductID \x27" ++
                    pyStr pv ++ "\x27."), none⟩
          else
            match pySetItem v3 "ProductDetails" (.details pds) with
            | .error e => .error e
            | .ok v4 =>
              match create_crew v4 with
              | .error e => .error e
              | .ok cr => .ok ⟨v4, r0, some cr⟩

/-- `attach_details` with only the dead lines 89-93 check removed:
identical up to the successful attachment (including the line-95
re-attach), then straight to crew construction.  Used to state that the
second emptiness check is unreachable. -/
def attach_details_live (v : PyVal) (r0 : Option String) (cat : List CatalogRecord) :
    Except PyErr CrewState :=
  match pySubscript v "ProductID" with
  | .error (.keyError _) =>
    .ok ⟨v, some " \x27ProductID\x27 key missing in input data.", none⟩
  | .error e =>
    .ok ⟨v, some (" Unexpected error while loading product details: " ++ errStr e), none⟩
  | .ok pidv =>
    match pyLoadDetails pidv cat with
    | .error e =>
      .ok ⟨v, some (" Unexpected error while loading product details: " ++ errStr e), none⟩
    | .ok pds =>
      if pds.isEmpty then
        .ok ⟨v, some (" No product details found for ProductID: " ++ pyStr pidv), none⟩
      else
        match pySetItem v "ProductDetails" (.details pds) with
        | .error e =>
          .ok ⟨v, some (" Unexpected error while loading product details: " ++ errStr e), none⟩
        | .ok v3 =>
          match pySetItem v3 "ProductDetails" (.details pds) with
          | .error e => .error e
          | .ok v4 =>
            match create_crew v4 with
            | .error e => .error e
            | .ok cr => .ok ⟨v4, r0, some cr⟩

/-- Steps 2-4 of `setup` over already-structured input. -/
def setup_structured (v : PyVal) (cat : List CatalogRecord) : Except PyErr CrewState :=
  match validate_and_cast v with
  | .error e => .error e
  | .ok (v1, r0) => attach_details v1 r0 cat

/-- `MarketplaceCrew.setup` as invoked by `__init__` (source lines
14-96): free-text input goes through one parsing-crew kickoff (line 48,
outside any `try`) and `json.loads` (lines 50-54); everything then flows
through validation, lookup and crew construction.  The first component
is the resulting object state or an escaping exception, the second the
trace of Reasoning Capability invocations. -/
def setup (raw : PyVal) (cat : List CatalogRecord) (cap : Cap) :
    Except PyErr CrewState × List CallRec :=
  match raw with
  | .str s =>
    let parsedTr := kickoff cap [parsing_task s]
    match parsedTr.1 with
    | .error e => (.error e, parsedTr.2)
    | .ok parsed =>
      match jsonLoads (pyStrip parsed) with
      | .error e =>
        (.ok ⟨.str s, some (" Failed to parse input: " ++ e ++
              "\nRaw output:\n" ++ parsed), none⟩, parsedTr.2)
      | .ok v => (setup_structured v cat, parsedTr.2)
  | v => (setup_structured v cat, [])

/-- `MarketplaceCrew.run` (source lines 197-202): a truthy `result` is
returned as-is; otherwise the constructed crew is kicked off (line 201,
outside any `try`); otherwise the fallback message. -/
def run (st : CrewState) (cap : Cap) : Except PyErr String × List CallRec :=
  if (st.result.getD "") ≠ "" then (.ok (st.result.getD ""), [])
  else
    match st.crew with
    | some cr => kickoff cap cr.tasks
    | none => (.ok " Unexpected error: crew could not be initialized.", [])

/-- Constructing `MarketplaceCrew(input_data)` and calling `.run()`:
the composite entry point, returning the final string or the escaping
exception, together with the full capability-invocation trace. -/
def pipeline (raw : PyVal) (cat : List CatalogRecord) (cap : Cap) :
    Except PyErr String × List CallRec :=
  match setup raw cat cap with
  | (.ok st, tr) =>
    let rt := run st cap
    (rt.1, tr ++ rt.2)
  | (.error e, tr) => (.error e, tr)

/-! Concrete instances used by the claim theorems and witnesses. -/

/-- A one-record catalog holding product `p1`. -/
def catalogP1 : List CatalogRecord := [⟨some "p1", [("seller_id", "s1"), ("price", "4.5")]⟩]

/-- A deterministic capability stub. -/
def capStub : Cap := fun _ _ _ => Except.ok "stub"

/-- A capability stub whose completion is not parseable JSON. -/
def capNotJson : Cap := fun _ _ _ => Except.ok "not json"

/-- A capability that always fails. -/
def capBoom : Cap := fun _ _ _ => Except.error (.capFailure "boom")

/-- A capability that fails exactly on the task described "task two". -/
def capFailSecond : Cap := fun _ _ d =>
  if d = "task two" then Except.error (.capFailure "boom") else Except.ok ("done " ++ d)

/-- Two plain tasks, the second of which `capFailSecond` fails on. -/
def taskA : TaskT := ⟨"task one", "out", junior_seller⟩

/-- Second plain task. -/
def taskB : TaskT := ⟨"task two", "out", senior_seller⟩

/-- Structured input with a valid catalog-present `ProductID` and valid
`Budget` but non-integer `Quantity`. -/
def inputBadQty : PyVal :=
  .dict [("ProductID", .str "p1"), ("Quantity", .str "abc"),
         ("Budget", .str "5.0"), ("Instruction", .str "fast")]

/-- Structured input with `Budget` missing but a valid catalog-present
`ProductID`. -/
def inputNoBudget : PyVal :=
  .dict [("ProductID", .str "p1"), ("Quantity", .int 1), ("Instruction", .str "x")]

/-- Fully valid structured input for `catalogP1`. -/
def inputOK : PyVal :=
  .dict [("ProductID", .str "p1"), ("Quantity", .int 2),
         ("Budget", .str "19.99"), ("Instruction", .str "fast shipping")]

/-- Structured input whose `ProductID` is absent from `catalogP1`. -/
def inputNotFound : PyVal :=
  .dict [("ProductID", .str "zz"), ("Quantity", .int 1),
         ("Budget", .float ⟨5, 0⟩), ("Instruction", .str "x")]

/-- Structured input with no `ProductID` key at all. -/
def inputNoPID : PyVal :=
  .dict [("Quantity", .int 1), ("Budget", .float ⟨5, 0⟩), ("Instruction", .str "x")]

/-- A catalog record with no `product_id` field. -/
def recNoId : CatalogRecord := ⟨none, [("seller_id", "s9")]⟩

/-- A fully normalized request dict as it stands right before crew
construction (coerced `Budget`, attached `ProductDetails`). -/
def inputReady : PyVal :=
  .dict [("ProductID", .str "p1"), ("Quantity", .int 2), ("Budget", .float ⟨1999, 2⟩),
         ("Instruction", .str "fast shipping"), ("ProductDetails", .details catalogP1)]

/-! Theorems settling the claims. -/

/-- C5: `load_product_details` returns exactly the catalog records whose
`product_id` equals the queried identifier under whitespace-stripped,
case-insensitive comparison, preserving catalog order among matches (the
result is a sublist of the catalog); the queries " P5 ", "p5" and "P5"
resolve to the same record set; an empty match set is the empty list —
by its type the function returns a list and never raises. -/
theorem load_product_details_correct (pid : String) (c : List CatalogRecord) :
    (load_product_details pid c).Sublist c ∧
    (∀ r, r ∈ load_product_details pid c ↔
      r ∈ c ∧ pyLower (pyStrip (r.product_id.getD "")) = pyLower (pyStrip pid)) ∧
    load_product_details " P5 " c = load_product_details "p5" c ∧
    load_product_details "P5" c = load_product_details "p5" c := by
  refine ⟨List.filter_sublist _, ?_, ?_, ?_⟩
  · intro r
    simp [load_product_details, List.mem_filter, beq_iff_eq]
  · simp only [load_product_details,
      show pyLower (pyStrip " P5 ") = pyLower (pyStrip "p5") from by decide]
  · simp only [load_product_details,
      show pyLower (pyStrip "P5") = pyLower (pyStrip "p5") from by decide]

/-- C9: when the queried identifier strips to the empty string, lookup
returns every catalog record that lacks a `product_id` field (the
`get` default makes it the empty string) and every record whose
`product_id` strips to the empty string. -/
theorem load_product_details_empty_query (q : String) (c : List CatalogRecord)
    (hq : pyStrip q = "") :
    ∀ r ∈ c, (r.product_id = none ∨ ∃ s, r.product_id = some s ∧ pyStrip s = "") →
      r ∈ load_product_details q c := by
  intro r hr hcase
  unfold load_product_details
  rw [List.mem_filter]
  refine ⟨hr, ?_⟩
  rw [hq]
  rcases hcase with h | ⟨s, hs, hstrip⟩
  · rw [h]; decide
  · rw [hs]
    simp only [Option.getD_some]
    rw [hstrip]
    decide

/-- Witness for C9 at a whitespace-only query, a record with no
`product_id` field, and a singleton catalog. -/
theorem load_product_details_empty_query_witness :
    recNoId ∈ load_product_details "  " [recNoId] :=
  load_product_details_empty_query "  " [recNoId] (by decide) recNoId
    (List.mem_singleton.mpr rfl) (Or.inl rfl)

/-- C10: the second emptiness check on `product_details` (source lines
89-93, producing the " Agent: Sorry, no matches found" message) is dead
code: steps 3-4 with the check are extensionally equal to the same code
with the check removed, because an empty lookup result already exits
through the earlier `ValueError` branch — so of the two similar
not-found messages only the first can ever be returned. -/
theorem second_emptiness_check_unreachable (v : PyVal) (r0 : Option String)
    (cat : List CatalogRecord) :
    attach_details v r0 cat = attach_details_live v r0 cat := by
  unfold attach_details attach_details_live
  split
  · rfl
  · rfl
  · split
    · rfl
    · split
      · rfl
      · split
        · rfl
        · split
          · rename_i hemp1 _ _ hemp2
            simp_all
          · rfl

/-- C8: the entry point is a deterministic function of the input, the
catalog and the injected capability: any two invocations on identical
arguments return the same final output (the embedding carries no other
state, matching the program, whose only collaborators are injected). -/
theorem run_deterministic (raw : PyVal) (cat : List CatalogRecord) (cap : Cap)
    (r1 r2 : Except PyErr String × List CallRec)
    (h1 : r1 = pipeline raw cat cap) (h2 : r2 = pipeline raw cat cap) :
    r1 = r2 := h1.trans h2.symm

/-- Witness for C8 at a concrete valid input. -/
theorem run_deterministic_witness :
    pipeline inputOK catalogP1 capStub = pipeline inputOK catalogP1 capStub :=
  run_deterministic inputOK catalogP1 capStub _ _ rfl rfl

/-- C1 (code bug): on input with valid `ProductID` and `Budget` but
non-integer `Quantity`, the gate-2 validation error does not terminate
normalization: `setup` returns a state carrying both the recorded
" Invalid input format" message and a fully constructed four-stage crew,
i.e. the partially-valid request reached crew construction. -/
theorem gate2_error_constructs_crew :
    Except.map (fun st => (st.result, st.crew.isSome)) (setup inputBadQty catalogP1 capStub).1 =
      Except.ok
        (some " Invalid input format: invalid literal for int() with base 10: \x27abc\x27 (Budget: 5.0, Quantity: abc)",
         true) := by
  rfl

/-- C3 (code bug): structured input with `Budget` missing but a valid,
catalog-present `ProductID` never yields the `ValidationError` return:
normalization continues past gate 2 and the `Budget` subscript inside
`create_crew`'s f-string raises a `KeyError` that escapes the
constructor uncaught, so `run()` is never reached. -/
theorem missing_budget_uncaught_keyerror :
    (setup inputNoBudget catalogP1 capStub).1 = Except.error (PyErr.keyError "Budget") := by
  rfl

/-- C2 (counterexample): when the Reasoning Capability fails during
free-text extraction, the entry point propagates the capability's own
raised error to the caller instead of returning a terminal
stage-identifying message. -/
theorem capability_failure_escapes :
    (pipeline (.str "I need 3 units of product p2") [] capBoom).1 =
      Except.error (PyErr.capFailure "boom") := by
  rfl

/-- A string's character list is empty exactly when the string is empty. -/
theorem str_data_nil_iff (s : String) : s.data = [] ↔ s = "" := by
  constructor
  · intro h
    cases s
    simp_all
  · intro h
    rw [h]

/-- Appending to a non-empty string on the left stays non-empty. -/
theorem append_ne_empty_of_left (a b : String) (ha : a ≠ "") : a ++ b ≠ "" := by
  intro h
  have hd := congrArg String.data h
  rw [String.data_append] at hd
  exact ha ((str_data_nil_iff a).mp (List.append_eq_nil.mp hd).1)

/-- Appending to a non-empty string on the right stays non-empty. -/
theorem append_ne_empty_of_right (a b : String) (hb : b ≠ "") : a ++ b ≠ "" := by
  intro h
  have hd := congrArg String.data h
  rw [String.data_append] at hd
  exact hb ((str_data_nil_iff b).mp (List.append_eq_nil.mp hd).2)

/-- Updating one dict key leaves lookups of a different key unchanged. -/
theorem dictGet_insert_ne (kvs : List (String × PyVal)) (k k' : String) (v : PyVal)
    (h : k ≠ k') : dictGet (dictInsert kvs k v) k' = dictGet kvs k' := by
  induction kvs with
  | nil => simp [dictInsert, dictGet, h]
  | cons kv rest ih =>
    obtain ⟨k0, v0⟩ := kv
    by_cases h0 : k0 = k
    · subst h0
      simp [dictInsert, dictGet, h]
    · simp [dictInsert, dictGet, h0, ih]

/-- Step 2 on a dict never escapes: it returns the (possibly partially
coerced) dict together with an optional recorded message, and it only
ever touches the `Budget`/`Quantity` keys, so the `ProductID` lookup is
unchanged. -/
theorem validate_and_cast_dict (kvs : List (String × PyVal)) :
    ∃ kvs2 r0, validate_and_cast (.dict kvs) = .ok (.dict kvs2, r0) ∧
      dictGet kvs2 "ProductID" = dictGet kvs "ProductID" := by
  have hBP : ("Budget" : String) ≠ "ProductID" := by decide
  have hQP : ("Quantity" : String) ≠ "ProductID" := by decide
  unfold validate_and_cast
  split
  · exact ⟨kvs, _, rfl, rfl⟩
  · split
    · exact ⟨kvs, _, rfl, rfl⟩
    · split
      · rename_i heq
        simp [pySetItem] at heq
      · rename_i v1 hset
        simp only [pySetItem, Except.ok.injEq] at hset
        subst hset
        split
        · exact ⟨dictInsert kvs "Budget" (.float _), _, rfl,
            dictGet_insert_ne _ _ _ _ hBP⟩
        · split
          · exact ⟨dictInsert kvs "Budget" (.float _), _, rfl,
              dictGet_insert_ne _ _ _ _ hBP⟩
          · split
            · rename_i heq
              simp [pySetItem] at heq
            · rename_i v2 hset2
              simp only [pySetItem, Except.ok.injEq] at hset2
              subst hset2
              refine ⟨dictInsert (dictInsert kvs "Budget" (.float _)) "Quantity" (.int _),
                none, rfl, ?_⟩
              rw [dictGet_insert_ne _ _ _ _ hQP, dictGet_insert_ne _ _ _ _ hBP]

/-- C4: for every structured input whose `ProductID` matches no catalog
record, the entry point returns the not-found terminal message naming
that identifier with zero capability invocations (the empty trace); and
for every structured input with no `ProductID` key at all, it returns
the distinct " \x27ProductID\x27 key missing" validation message, again
with zero capability invocations.  Both hold regardless of the
`Budget`/`Quantity` contents, since gate 3 always runs and its message
overwrites any gate-2 message. -/
theorem notfound_and_missing_pid (kvs : List (String × PyVal))
    (cat : List CatalogRecord) (cap : Cap) :
    (∀ pid : String, dictGet kvs "ProductID" = some (.str pid) →
      load_product_details pid cat = [] →
      pipeline (.dict kvs) cat cap =
        (.ok (" No product details found for ProductID: " ++ pid), [])) ∧
    (dictGet kvs "ProductID" = none →
      pipeline (.dict kvs) cat cap =
        (.ok " \x27ProductID\x27 key missing in input data.", [])) := by
  obtain ⟨kvs2, r0, hvc, hpres⟩ := validate_and_cast_dict kvs
  have hss : setup_structured (.dict kvs) cat = attach_details (.dict kvs2) r0 cat := by
    unfold setup_structured
    rw [hvc]
  have hsetup : setup (.dict kvs) cat cap = (attach_details (.dict kvs2) r0 cat, []) := by
    show (setup_structured (.dict kvs) cat, []) = _
    rw [hss]
  constructor
  · intro pid hpid hload
    have hsub : pySubscript (.dict kvs2) "ProductID" = .ok (.str pid) := by
      simp [pySubscript, hpres, hpid]
    have hatt : attach_details (.dict kvs2) r0 cat =
        .ok ⟨.dict kvs2, some (" No product details found for ProductID: " ++ pid), none⟩ := by
      simp [attach_details, hsub, pyLoadDetails, hload, pyStr]
    have hne : (" No product details found for ProductID: " ++ pid) ≠ "" :=
      append_ne_empty_of_left _ pid (by decide)
    have hrun : run ⟨.dict kvs2, some (" No product details found for ProductID: " ++ pid), none⟩ cap =
        (.ok (" No product details found for ProductID: " ++ pid), []) := by
      unfold run
      dsimp only [Option.getD_some]
      rw [if_pos hne]
    unfold pipeline
    rw [hsetup, hatt]
    simp [hrun]
  · intro hmiss
    have hsub : pySubscript (.dict kvs2) "ProductID" = .error (.keyError "ProductID") := by
      simp [pySubscript, hpres, hmiss]
    have hatt : attach_details (.dict kvs2) r0 cat =
        .ok ⟨.dict kvs2, some " \x27ProductID\x27 key missing in input data.", none⟩ := by
      simp [attach_details, hsub]
    have hrun : run ⟨.dict kvs2, some " \x27ProductID\x27 key missing in input data.", none⟩ cap =
        (.ok " \x27ProductID\x27 key missing in input data.", []) := by
      unfold run
      dsimp only [Option.getD_some]
      rw [if_pos (show (" \x27ProductID\x27 key missing in input data." : String) ≠ "" by decide)]
    unfold pipeline
    rw [hsetup, hatt]
    simp [hrun]

/-- Witness for C4: the unmatched id `zz` and a missing `ProductID` key,
against the `p1` catalog. -/
theorem notfound_and_missing_pid_witness :
    pipeline inputNotFound catalogP1 capStub =
      (Except.ok (" No product details found for ProductID: " ++ "zz"), []) ∧
    pipeline inputNoPID catalogP1 capStub =
      (Except.ok " \x27ProductID\x27 key missing in input data.", []) :=
  ⟨(notfound_and_missing_pid _ catalogP1 capStub).1 "zz" rfl rfl,
   (notfound_and_missing_pid _ catalogP1 capStub).2 rfl⟩

/-- C7: when the extraction completion does not parse as JSON, `setup`
records the " Failed to parse input" message — which includes the raw
completion text — constructs no crew, and the entry point returns that
message with the parsing call as its only capability invocation (zero
stage invocations); moreover (last conjunct) for every capability,
normalization of free-text input makes exactly one capability request —
the single-task parsing crew, no retry. -/
theorem parse_failure_terminal (s comp e : String)
    (cat : List CatalogRecord) (cap : Cap)
    (hcap : cap parser_agent "" (parsing_task s).description = .ok comp)
    (hparse : jsonLoads (pyStrip comp) = .error e) :
    setup (.str s) cat cap =
      (.ok ⟨.str s, some (" Failed to parse input: " ++ e ++ "\nRaw output:\n" ++ comp), none⟩,
       [⟨parser_agent, "", (parsing_task s).description⟩]) ∧
    pipeline (.str s) cat cap =
      (.ok (" Failed to parse input: " ++ e ++ "\nRaw output:\n" ++ comp),
       [⟨parser_agent, "", (parsing_task s).description⟩]) ∧
    (∀ cap2 : Cap, (setup (.str s) cat cap2).2 =
      [⟨parser_agent, "", (parsing_task s).description⟩]) := by
  have hone : ∀ cap2 : Cap, (kickoffAux cap2 [parsing_task s] "").2 =
      [⟨parser_agent, "", (parsing_task s).description⟩] := by
    intro cap2
    cases hc : cap2 (parsing_task s).agent "" (parsing_task s).description with
    | error e2 =>
      unfold kickoffAux
      rw [hc]
      rfl
    | ok out =>
      unfold kickoffAux
      rw [hc]
      rfl
  have htr : ∀ cap2 : Cap, (setup (.str s) cat cap2).2 =
      [⟨parser_agent, "", (parsing_task s).description⟩] := by
    intro cap2
    unfold setup kickoff
    dsimp only
    split
    · dsimp only
      exact hone cap2
    · split
      · dsimp only
        exact hone cap2
      · dsimp only
        exact hone cap2
  have hcap' : cap (parsing_task s).agent "" (parsing_task s).description = .ok comp := hcap
  have hk : kickoffAux cap [parsing_task s] "" =
      (.ok comp, [⟨parser_agent, "", (parsing_task s).description⟩]) := by
    unfold kickoffAux
    rw [hcap']
    rfl
  have hsetup : setup (.str s) cat cap =
      (.ok ⟨.str s, some (" Failed to parse input: " ++ e ++ "\nRaw output:\n" ++ comp), none⟩,
       [⟨parser_agent, "", (parsing_task s).description⟩]) := by
    unfold setup kickoff
    dsimp only
    rw [hk]
    dsimp only
    rw [hparse]
  have hne : (" Failed to parse input: " ++ e ++ "\nRaw output:\n" ++ comp) ≠ "" :=
    append_ne_empty_of_left _ _ (append_ne_empty_of_right _ _ (by decide))
  refine ⟨hsetup, ?_, htr⟩
  unfold pipeline
  rw [hsetup]
  unfold run
  dsimp only [Option.getD_some]
  rw [if_pos hne]
  simp

/-- Witness for C7: the completion "not json" against input "hello". -/
theorem parse_failure_terminal_witness :
    setup (.str "hello") [] capNotJson =
      (Except.ok ⟨.str "hello",
        some (" Failed to parse input: " ++ "Expecting value" ++ "\nRaw output:\n" ++ "not json"),
        none⟩,
       [⟨parser_agent, "", (parsing_task "hello").description⟩]) ∧
    pipeline (.str "hello") [] capNotJson =
      (Except.ok (" Failed to parse input: " ++ "Expecting value" ++ "\nRaw output:\n" ++ "not json"),
       [⟨parser_agent, "", (parsing_task "hello").description⟩]) ∧
    (setup (.str "hello") [] capStub).2 =
      [⟨parser_agent, "", (parsing_task "hello").description⟩] :=
  ⟨(parse_failure_terminal "hello" "not json" "Expecting value" [] capNotJson rfl rfl).1,
   (parse_failure_terminal "hello" "not json" "Expecting value" [] capNotJson rfl rfl).2.1,
   (parse_failure_terminal "hello" "not json" "Expecting value" [] capNotJson rfl rfl).2.2 capStub⟩

/-- A successfully built junior-seller task is bound to the junior
seller agent. -/
theorem junior_seller_task_agent (v : PyVal) (t : TaskT)
    (h : junior_seller_task v = .ok t) : t.agent = junior_seller := by
  unfold junior_seller_task at h
  repeat' split at h
  all_goals simp_all
  all_goals rw [← h]

/-- A successfully built senior-seller task is bound to the senior
seller agent. -/
theorem senior_seller_task_agent (v : PyVal) (t : TaskT)
    (h : senior_seller_task v = .ok t) : t.agent = senior_seller := by
  unfold senior_seller_task at h
  repeat' split at h
  all_goals simp_all
  all_goals rw [← h]

/-- A successfully built senior-buyer task is bound to the senior buyer
agent. -/
theorem senior_buyer_task_agent (v : PyVal) (t : TaskT)
    (h : senior_buyer_task v = .ok t) : t.agent = senior_buyer := by
  unfold senior_buyer_task at h
  repeat' split at h
  all_goals simp_all
  all_goals rw [← h]

/-- A successfully constructed crew consists of exactly the four tasks
built from the request, in source order. -/
theorem create_crew_tasks (v : PyVal) (cr : CrewT) (h : create_crew v = .ok cr) :
    ∃ t1 t2 t4,
      junior_seller_task v = .ok t1 ∧ senior_seller_task v = .ok t2 ∧
      senior_buyer_task v = .ok t4 ∧
      cr = ⟨[junior_seller, senior_seller, junior_buyer, senior_buyer],
            [t1, t2, junior_buyer_task, t4]⟩ := by
  unfold create_crew at h
  split at h
  · exact absurd h (by simp)
  · rename_i t1 h1
    split at h
    · exact absurd h (by simp)
    · rename_i t2 h2
      split at h
      · exact absurd h (by simp)
      · rename_i t4 h4
        injection h with h'
        exact ⟨t1, t2, t4, h1, h2, h4, h'.symm⟩

/-- C6: for a valid normalized request (a constructed crew and no
recorded error), `run` with a deterministic capability stub `f` executes
exactly the four tasks shortlist, review, selection, approval in that
order: the trace shows one invocation per stage, stage 1 with empty
context, each later stage's context being literally the previous stage's
output, and the returned result being the fourth stage's output
verbatim. -/
theorem four_stages_in_order (v : PyVal) (cr : CrewT)
    (f : AgentT → String → String → String) (st : CrewState)
    (h : create_crew v = .ok cr) (hres : st.result = none) (hcrew : st.crew = some cr) :
    ∃ d1 d2 d3 d4,
      cr.tasks.map (fun t => t.description) = [d1, d2, d3, d4] ∧
      cr.tasks.map (fun t => t.agent) =
        [junior_seller, senior_seller, junior_buyer, senior_buyer] ∧
      run st (fun a c t => Except.ok (f a c t)) =
        (Except.ok (f senior_buyer (f junior_buyer (f senior_seller (f junior_seller "" d1) d2) d3) d4),
         [⟨junior_seller, "", d1⟩,
          ⟨senior_seller, f junior_seller "" d1, d2⟩,
          ⟨junior_buyer, f senior_seller (f junior_seller "" d1) d2, d3⟩,
          ⟨senior_buyer, f junior_buyer (f senior_seller (f junior_seller "" d1) d2) d3, d4⟩]) := by
  obtain ⟨t1, t2, t4, h1, h2, h4, hcr⟩ := create_crew_tasks v cr h
  have ha1 := junior_seller_task_agent v t1 h1
  have ha2 := senior_seller_task_agent v t2 h2
  have ha4 := senior_buyer_task_agent v t4 h4
  subst hcr
  refine ⟨t1.description, t2.description, junior_buyer_task.description, t4.description,
    rfl, ?_, ?_⟩
  · simp [ha1, ha2, ha4, junior_buyer_task]
  · unfold run
    rw [hres, hcrew]
    rw [if_neg (by simp)]
    simp only [kickoff, kickoffAux, ha1, ha2, ha4, junior_buyer_task]

/-- Witness for C6: a concrete normalized request and the constant
stub returning "ok". -/
theorem four_stages_in_order_witness :
    ∃ cr, create_crew inputReady = Except.ok cr ∧
      ∃ d1 d2 d3 d4,
        cr.tasks.map (fun t => t.description) = [d1, d2, d3, d4] ∧
        cr.tasks.map (fun t => t.agent) =
          [junior_seller, senior_seller, junior_buyer, senior_buyer] ∧
        run ⟨inputReady, none, some cr⟩ (fun _ _ _ => Except.ok "ok") =
          (Except.ok "ok",
           [⟨junior_seller, "", d1⟩, ⟨senior_seller, "ok", d2⟩,
            ⟨junior_buyer, "ok", d3⟩, ⟨senior_buyer, "ok", d4⟩]) := by
  have hok : (create_crew inputReady).toOption.isSome = true := rfl
  cases hcw : create_crew inputReady with
  | error e =>
    rw [hcw] at hok
    simp [Except.toOption] at hok
  | ok cr =>
    obtain ⟨d1, d2, d3, d4, hdesc, hagents, hrun⟩ :=
      four_stages_in_order inputReady cr (fun _ _ _ => "ok") ⟨inputReady, none, some cr⟩ hcw rfl rfl
    exact ⟨cr, rfl, d1, d2, d3, d4, hdesc, hagents, hrun⟩

/-- C2 (amended): when the sequential task executor fails, the returned
error is exactly the capability's own raised error at its final
invocation; the trace shows the tasks attempted once each, in order — an
initial segment of the task list ending at the failing task — so no task
is retried and nothing runs after the failure. -/
theorem kickoff_error_no_retry (cap : Cap) (tasks : List TaskT) (ctx : String) (e : PyErr)
    (h : (kickoffAux cap tasks ctx).1 = .error e) :
    ∃ done lastT rest, tasks = (done ++ [lastT]) ++ rest ∧
      (kickoffAux cap tasks ctx).2.map (fun c => c.description) =
        (done ++ [lastT]).map (fun t => t.description) ∧
      ∃ pre lastCall, (kickoffAux cap tasks ctx).2 = pre ++ [lastCall] ∧
        cap lastCall.agent lastCall.context lastCall.description = .error e := by
  induction tasks generalizing ctx with
  | nil => simp [kickoffAux] at h
  | cons t ts ih =>
    cases hc : cap t.agent ctx t.description with
    | error e' =>
      have hk : kickoffAux cap (t :: ts) ctx =
          (.error e', [⟨t.agent, ctx, t.description⟩]) := by
        unfold kickoffAux
        rw [hc]
      rw [hk] at h ⊢
      injection h with h'
      subst h'
      exact ⟨[], t, ts, by simp, by simp, [], ⟨t.agent, ctx, t.description⟩, by simp, hc⟩
    | ok out =>
      have hk : kickoffAux cap (t :: ts) ctx =
          ((kickoffAux cap ts out).1,
           ⟨t.agent, ctx, t.description⟩ :: (kickoffAux cap ts out).2) := by
        conv_lhs => unfold kickoffAux
        rw [hc]
      rw [hk] at h
      obtain ⟨done, lastT, rest, hts, hmap, pre, lastCall, htr, hcap⟩ := ih out h
      refine ⟨t :: done, lastT, rest, by simp [← List.append_assoc] at hts ⊢; exact hts, ?_,
        ⟨t.agent, ctx, t.description⟩ :: pre, lastCall, ?_, hcap⟩
      · rw [hk]
        simp only [List.map_cons, List.map_append] at hmap ⊢
        simp [hmap]
      · rw [hk]
        simp [htr]

/-- Witness for the amended C2: two tasks with a capability failing on
the second — one call per task, the error surfaced from the second
call. -/
theorem kickoff_error_no_retry_witness :
    ∃ done lastT rest, [taskA, taskB] = (done ++ [lastT]) ++ rest ∧
      (kickoffAux capFailSecond [taskA, taskB] "").2.map (fun c => c.description) =
        (done ++ [lastT]).map (fun t => t.description) ∧
      ∃ pre lastCall, (kickoffAux capFailSecond [taskA, taskB] "").2 = pre ++ [lastCall] ∧
        capFailSecond lastCall.agent lastCall.context lastCall.description =
          Except.error (.capFailure "boom") :=
  kickoff_error_no_retry capFailSecond [taskA, taskB] "" (.capFailure "boom") rfl
